import Mathlib

/-!
Shallow embedding of the campus-confessions backend (src/server.js).

The relational store (SQLite tables posts / reactions / replies / reports)
is modelled as lists of rows plus AUTOINCREMENT counters.  Each HTTP
handler becomes a pure function from the store (and the request inputs)
to an `Except ApiError` result together with the updated store.  SQL
statements are embedded as list operations: `DELETE ... WHERE` is
`List.filter` on the negated condition, `UPDATE ... WHERE` is `List.map`
guarded by the condition, `COUNT(*) ... GROUP BY` is `dedup` of the
grouping keys paired with per-key filtered lengths, and `ORDER BY ... DESC`
is `List.mergeSort` with the descending comparison.  `CURRENT_TIMESTAMP`
is passed in as an explicit `now : Nat` argument.
-/

/-- Outcomes a handler can produce besides a success payload:
400 validation errors, 404 not-found, and 500 store errors. -/
inductive ApiError where
  | validation (msg : String)
  | notFound
  | storeError (msg : String)
deriving Repr, DecidableEq

/-- Row of the posts table (server.js lines 22-30). -/
structure Post where
  id : Nat
  text : String
  mood : String
  image : Option String
  likes : Nat
  reposts : Nat
  timestamp : Nat
deriving Repr, DecidableEq

/-- Row of the reactions table (server.js lines 32-38). -/
structure Reaction where
  id : Nat
  post_id : Nat
  type : String
  timestamp : Nat
deriving Repr, DecidableEq

/-- Row of the replies table (server.js lines 40-46). -/
structure Reply where
  id : Nat
  post_id : Nat
  text : String
  timestamp : Nat
deriving Repr, DecidableEq

/-- Row of the reports table (server.js lines 48-54). -/
structure Report where
  id : Nat
  post_id : Nat
  reason : String
  timestamp : Nat
deriving Repr, DecidableEq

/-- The whole SQLite database: four tables plus the AUTOINCREMENT
counters used for the primary keys. -/
structure Store where
  posts : List Post
  reactions : List Reaction
  replies : List Reply
  reports : List Report
  nextPostId : Nat
  nextReactionId : Nat
  nextReplyId : Nat
  nextReportId : Nat
deriving Repr, DecidableEq

/-- MAX_LENGTH constant (server.js line 8). -/
def MAX_LENGTH : Nat := 280

/-- Strip leading and trailing whitespace from a list of characters. -/
def trimChars (l : List Char) : List Char :=
  ((l.dropWhile Char.isWhitespace).reverse.dropWhile Char.isWhitespace).reverse

/-- JavaScript String.prototype.trim: the string without its leading and
trailing whitespace. -/
def jsTrim (s : String) : String := String.mk (trimChars s.data)

/-- Valid moods for a post (server.js lines 116 and 131). -/
def validMoods : List String :=
  ["none", "love", "happy", "sad", "angry", "anxious", "excited"]

/-- Mood substitution: an unrecognized mood is silently replaced by
"none" (server.js lines 117 and 132). -/
def safeMood (mood : String) : String :=
  if validMoods.contains mood then mood else "none"

/-- Valid reaction types (server.js line 187). -/
def validTypes : List String := ["love", "haha", "sad", "angry", "fire"]

/-- Valid report reasons (server.js line 223). -/
def validReasons : List String :=
  ["spam", "inappropriate", "harassment", "hate_speech", "violence", "copyright", "other"]

/-- JavaScript `image || null`: the supplied image value when it is
truthy, null otherwise.  Requests carry the image as an optional string,
so the falsy string values are exactly `none` (absent / null) and
`some ""` (the empty string). -/
def imageOrNull (image : Option String) : Option String :=
  match image with
  | none => none
  | some s => if s = "" then none else some s

/-- POST /api/posts (server.js lines 111-123): validate the text, coerce
the mood, insert the row, and return the created post. -/
def createPost (st : Store) (now : Nat) (text mood : String) (image : Option String) :
    Except ApiError (Store × Post) :=
  if jsTrim text = "" then .error (.validation "Post cannot be empty")
  else if (jsTrim text).length > MAX_LENGTH then .error (.validation "Max 280 characters")
  else
    let p : Post :=
      { id := st.nextPostId, text := jsTrim text, mood := safeMood mood,
        image := imageOrNull image, likes := 0, reposts := 0, timestamp := now }
    .ok ({ st with posts := st.posts ++ [p], nextPostId := st.nextPostId + 1 }, p)

/-- PUT /api/posts/:id (server.js lines 126-143): validate the text,
run UPDATE posts SET text, mood, image WHERE id, and answer 404 when the
statement changed no row. -/
def updatePost (st : Store) (id : Nat) (text mood : String) (image : Option String) :
    Except ApiError Store :=
  if jsTrim text = "" then .error (.validation "Post cannot be empty")
  else if (jsTrim text).length > MAX_LENGTH then .error (.validation "Max 280 characters")
  else
    let changes := st.posts.countP (fun p => p.id == id)
    if changes = 0 then .error .notFound
    else .ok { st with
      posts := st.posts.map (fun p =>
        if p.id = id then
          { p with text := jsTrim text, mood := safeMood mood, image := imageOrNull image }
        else p) }

/-- DELETE /api/posts/:id (server.js lines 146-158): unconditionally
delete the reactions, replies and reports rows whose post_id matches,
then delete the post row; 404 exactly when that last DELETE changed no
row.  The function returns the store after all four statements together
with the response. -/
def deletePost (st : Store) (id : Nat) : Store × Except ApiError Unit :=
  let st1 : Store := { st with
    reactions := st.reactions.filter (fun r => !(r.post_id == id)),
    replies := st.replies.filter (fun r => !(r.post_id == id)),
    reports := st.reports.filter (fun r => !(r.post_id == id)) }
  let changes := st1.posts.countP (fun p => p.id == id)
  let st2 : Store := { st1 with posts := st1.posts.filter (fun p => !(p.id == id)) }
  (st2, if changes = 0 then .error .notFound else .ok ())

/-- POST /api/posts/:id/like (server.js lines 161-170): UPDATE posts SET
likes = likes + 1 WHERE id, 404 when no row changed, then SELECT the new
likes value back.  The SELECT cannot miss after a successful UPDATE; the
storeError branch models the crash the JavaScript would have if it did. -/
def incrementLikes (st : Store) (id : Nat) : Except ApiError (Store × Nat) :=
  if st.posts.countP (fun p => p.id == id) = 0 then .error .notFound
  else
    match (st.posts.map (fun p =>
        if p.id = id then { p with likes := p.likes + 1 } else p)).find?
          (fun p => p.id == id) with
    | some row => .ok ({ st with posts := st.posts.map (fun p =>
        if p.id = id then { p with likes := p.likes + 1 } else p) }, row.likes)
    | none => .error (.storeError "row vanished")

/-- POST /api/posts/:id/repost (server.js lines 173-182): same shape as
the like handler, on the reposts counter. -/
def incrementReposts (st : Store) (id : Nat) : Except ApiError (Store × Nat) :=
  if st.posts.countP (fun p => p.id == id) = 0 then .error .notFound
  else
    match (st.posts.map (fun p =>
        if p.id = id then { p with reposts := p.reposts + 1 } else p)).find?
          (fun p => p.id == id) with
    | some row => .ok ({ st with posts := st.posts.map (fun p =>
        if p.id = id then { p with reposts := p.reposts + 1 } else p) }, row.reposts)
    | none => .error (.storeError "row vanished")

/-- SELECT type, COUNT(*) FROM reactions WHERE post_id = ? GROUP BY type
(server.js line 192): one entry per distinct type among the reactions of
the post, carrying the number of its rows. -/
def reactionBreakdown (rs : List Reaction) (pid : Nat) : List (String × Nat) :=
  let mine := rs.filter (fun r => r.post_id == pid)
  ((mine.map (fun r => r.type)).dedup).map
    (fun ty => (ty, (mine.filter (fun r => r.type == ty)).length))

/-- POST /api/posts/:id/react (server.js lines 185-199): reject an
invalid type, otherwise insert the reaction row without checking that
the post exists, and return the per-type breakdown for that post id. -/
def addReaction (st : Store) (now : Nat) (pid : Nat) (ty : String) :
    Except ApiError (Store × List (String × Nat)) :=
  if !(validTypes.contains ty) then .error (.validation "Invalid reaction")
  else
    let r : Reaction := { id := st.nextReactionId, post_id := pid, type := ty, timestamp := now }
    let st1 : Store :=
      { st with reactions := st.reactions ++ [r], nextReactionId := st.nextReactionId + 1 }
    .ok (st1, reactionBreakdown st1.reactions pid)

/-- POST /api/posts/:id/reply (server.js lines 210-218): reject empty
text, otherwise insert the reply row without checking that the post
exists, and return the created reply. -/
def addReply (st : Store) (now : Nat) (pid : Nat) (text : String) :
    Except ApiError (Store × Reply) :=
  if jsTrim text = "" then .error (.validation "Reply cannot be empty")
  else
    let rep : Reply := { id := st.nextReplyId, post_id := pid, text := jsTrim text, timestamp := now }
    .ok ({ st with replies := st.replies ++ [rep], nextReplyId := st.nextReplyId + 1 }, rep)

/-- POST /api/posts/:id/report (server.js lines 221-230): reject an
invalid reason, otherwise insert the report row without checking that
the post exists, and return the created report. -/
def addReport (st : Store) (now : Nat) (pid : Nat) (reason : String) :
    Except ApiError (Store × Report) :=
  if !(validReasons.contains reason) then .error (.validation "Invalid reason")
  else
    let rep : Report :=
      { id := st.nextReportId, post_id := pid, reason := reason, timestamp := now }
    .ok ({ st with reports := st.reports ++ [rep], nextReportId := st.nextReportId + 1 }, rep)

/-- Row shape produced by the GET /api/posts join (server.js lines
94-101): the post columns plus the COALESCEd aggregate counts. -/
structure PostRow where
  post : Post
  reaction_count : Nat
  reply_count : Nat
deriving Repr, DecidableEq

/-- Total number of reactions rows for a post id: the LEFT JOIN subquery
on reactions, with COALESCE(_, 0) when the post has none. -/
def reaction_count (st : Store) (pid : Nat) : Nat :=
  (st.reactions.filter (fun r => r.post_id == pid)).length

/-- Total number of replies rows for a post id: the LEFT JOIN subquery
on replies, with COALESCE(_, 0) when the post has none. -/
def reply_count (st : Store) (pid : Nat) : Nat :=
  (st.replies.filter (fun r => r.post_id == pid)).length

/-- The joined rows before ORDER BY: every post augmented with its
aggregate counts. -/
def postRows (st : Store) : List PostRow :=
  st.posts.map (fun p => { post := p, reaction_count := reaction_count st p.id,
                           reply_count := reply_count st p.id })

/-- ORDER BY key for sort=top (server.js line 91): descending in
reaction_count + reposts + likes. -/
def topOrder (a b : PostRow) : Bool :=
  b.reaction_count + b.post.reposts + b.post.likes ≤
    a.reaction_count + a.post.reposts + a.post.likes

/-- Default ORDER BY key (server.js line 92): descending in the creation
timestamp. -/
def timeOrder (a b : PostRow) : Bool :=
  b.post.timestamp ≤ a.post.timestamp

/-- GET /api/posts before response assembly (server.js lines 89-102):
the joined rows, ordered by the key selected by the sort query
parameter. -/
def listPosts (st : Store) (sortQuery : Option String) : List PostRow :=
  if sortQuery == some "top" then (postRows st).mergeSort topOrder
  else (postRows st).mergeSort timeOrder

/-- Row of the grouped breakdown query issued by getReactionsForPosts
(server.js line 72). -/
structure GroupRow where
  post_id : Nat
  type : String
  count : Nat
deriving Repr, DecidableEq

/-- GROUP BY post_id, type over a list of reactions rows: one group row
per distinct (post_id, type) pair, carrying COUNT(*) of its group. -/
def groupRows (rs : List Reaction) : List GroupRow :=
  ((rs.map (fun r => (r.post_id, r.type))).dedup).map
    (fun k => { post_id := k.1, type := k.2,
                count := (rs.filter (fun r => (r.post_id, r.type) == k)).length })

/-- SELECT post_id, type, COUNT(*) FROM reactions WHERE post_id IN ids
GROUP BY post_id, type: the WHERE clause keeps the reactions whose
post_id is listed, then the rows are grouped. -/
def runGroupQuery (st : Store) (ids : List Nat) : List GroupRow :=
  groupRows (st.reactions.filter (fun r => ids.contains r.post_id))

/-- getReactionsForPosts (server.js lines 68-84).  With an empty id list
it answers the empty map before issuing any query, so the result cannot
depend on the store; otherwise the outcome of the grouped query is
passed in as `queryResult` (`none` models a failed db.all, which the
function swallows by answering the empty map).  The returned map sends a
post id to its type/count breakdown, empty when the id has no entry. -/
def getReactionsForPosts (ids : List Nat) (queryResult : Option (List GroupRow)) :
    Nat → List (String × Nat) :=
  if ids.length = 0 then fun _ => []
  else
    match queryResult with
    | none => fun _ => []
    | some rows => fun pid =>
        (rows.filter (fun r => r.post_id == pid)).map (fun r => (r.type, r.count))

/-- One element of the GET /api/posts response body: the joined row
spread together with its reactions breakdown (server.js line 105). -/
structure ListedPost where
  row : PostRow
  reactions : List (String × Nat)
deriving Repr, DecidableEq

/-- Full GET /api/posts handler (server.js lines 89-108), parametrized
by the outcome of the grouped breakdown query: order the joined rows,
fetch the breakdown map for exactly the listed ids, and attach
`reactionsMap[row.id] || empty` to every row. -/
def listPostsFull (st : Store) (sortQuery : Option String)
    (queryResult : Option (List GroupRow)) : List ListedPost :=
  (listPosts st sortQuery).map (fun row =>
    { row := row,
      reactions := getReactionsForPosts
        ((listPosts st sortQuery).map (fun r => r.post.id)) queryResult row.post.id })

/-- GET /api/posts in normal operation: the grouped query succeeds and
returns exactly the groups present in the store. -/
def listPostsOk (st : Store) (sortQuery : Option String) : List ListedPost :=
  listPostsFull st sortQuery
    (some (runGroupQuery st ((listPosts st sortQuery).map (fun r => r.post.id))))

/-! Concrete stores used to instantiate the theorems. -/

/-- A store with all four tables empty. -/
def emptyStore : Store :=
  { posts := [], reactions := [], replies := [], reports := [],
    nextPostId := 1, nextReactionId := 1, nextReplyId := 1, nextReportId := 1 }

/-- A concrete post. -/
def demoPost : Post :=
  { id := 1, text := "hi", mood := "none", image := none,
    likes := 0, reposts := 0, timestamp := 10 }

/-- A store with one post and two reactions on it. -/
def demoStore : Store :=
  { posts := [demoPost],
    reactions := [{ id := 1, post_id := 1, type := "love", timestamp := 11 },
                  { id := 2, post_id := 1, type := "fire", timestamp := 12 }],
    replies := [], reports := [],
    nextPostId := 2, nextReactionId := 3, nextReplyId := 1, nextReportId := 1 }

/-- The joined row the list endpoint produces for demoPost. -/
def demoRow : PostRow := { post := demoPost, reaction_count := 2, reply_count := 0 }

/-! Theorems. -/

/-- C8: when the posts table is empty the list endpoint answers the
empty array, and getReactionsForPosts with an empty id list answers the
empty map immediately; both results hold for every grouped-query
outcome, so neither depends on the store being queried. -/
theorem empty_store_list_shortcircuit (st : Store) (q : Option String)
    (qr : Option (List GroupRow)) (h : st.posts = []) :
    listPostsFull st q qr = [] ∧ getReactionsForPosts [] qr = fun _ => [] := by
  constructor
  · have hrows : listPosts st q = [] := by
      unfold listPosts postRows
      rw [h]
      split <;> simp
    simp [listPostsFull, hrows]
  · rfl

/-- Witness for C8 at the concrete empty store. -/
theorem empty_store_list_shortcircuit_witness :
    listPostsFull emptyStore none none = [] ∧
      getReactionsForPosts [] none = fun _ => [] :=
  empty_store_list_shortcircuit emptyStore none none rfl

/-- C10: when the grouped breakdown query fails, the list endpoint still
answers successfully with the same ordered rows, every one of them
carrying an empty reactions map. -/
theorem failed_breakdown_swallowed (st : Store) (q : Option String) :
    (listPostsFull st q none).map (fun e => e.row) = listPosts st q ∧
    ∀ e ∈ listPostsFull st q none, e.reactions = [] := by
  have hmap : getReactionsForPosts ((listPosts st q).map (fun r => r.post.id)) none
      = fun _ => [] := by
    unfold getReactionsForPosts
    split
    · rfl
    · rfl
  refine ⟨?_, ?_⟩
  · simp [listPostsFull, hmap, Function.comp_def]
  · intro e he
    simp [listPostsFull, hmap] at he
    obtain ⟨row, hrow, rfl⟩ := he
    rfl

/-- Witness for C10 at the concrete one-post store. -/
theorem failed_breakdown_swallowed_witness :
    ListedPost.reactions { row := demoRow, reactions := [] } = [] :=
  (failed_breakdown_swallowed demoStore none).2
    { row := demoRow, reactions := [] }
    (by simp [listPostsFull, listPosts, postRows, getReactionsForPosts,
              demoStore, demoPost, demoRow, reaction_count, reply_count])

/-- Helper: the image || null coercion sends exactly the falsy image
values (absent, or the empty string) to null and keeps the others. -/
theorem imageOrNull_eq_ite (image : Option String) :
    imageOrNull image = if image = some "" ∨ image = none then none else image := by
  cases image with
  | none => simp [imageOrNull]
  | some s => by_cases hs : s = "" <;> simp [imageOrNull, hs]

/-- C9: in createPost and updatePost a falsy image value (absent, or the
empty string) is stored as null, while a truthy (nonempty) image value
is stored as supplied. -/
theorem falsy_image_stored_as_null (st : Store) (now id : Nat) (text mood : String)
    (image : Option String) :
    (∀ st' p, createPost st now text mood image = .ok (st', p) →
       p.image = if image = some "" ∨ image = none then none else image) ∧
    (∀ st', updatePost st id text mood image = .ok st' →
       ∀ p ∈ st'.posts, p.id = id →
         p.image = if image = some "" ∨ image = none then none else image) := by
  rw [← imageOrNull_eq_ite]
  constructor
  · intro st' p h
    unfold createPost at h
    split at h
    · simp at h
    · split at h
      · simp at h
      · simp only [Except.ok.injEq, Prod.mk.injEq] at h
        rw [← h.2]
  · intro st' h p hp hpid
    unfold updatePost at h
    split at h
    · simp at h
    · split at h
      · simp at h
      · simp only [] at h
        split at h
        · simp at h
        · simp only [Except.ok.injEq] at h
          subst h
          simp only [List.mem_map] at hp
          obtain ⟨q, hq, rfl⟩ := hp
          by_cases hqid : q.id = id
          · simp [hqid]
          · simp [hqid] at hpid

/-- Witness for C9: creating a post with an empty-string image at the
empty store stores a null image. -/
theorem falsy_image_stored_as_null_witness :
    Post.image { id := 1, text := "hi", mood := "none", image := imageOrNull (some ""),
                 likes := 0, reposts := 0, timestamp := 0 } =
      (if (some "" : Option String) = some "" ∨ (some "" : Option String) = none
       then none else some "") :=
  (falsy_image_stored_as_null emptyStore 0 1 "hi" "none" (some "")).1
    { emptyStore with
        posts := [{ id := 1, text := "hi", mood := "none", image := imageOrNull (some ""),
                    likes := 0, reposts := 0, timestamp := 0 }],
        nextPostId := 2 }
    { id := 1, text := "hi", mood := "none", image := imageOrNull (some ""),
      likes := 0, reposts := 0, timestamp := 0 }
    (by simp [createPost, jsTrim, trimChars, MAX_LENGTH, safeMood, validMoods, emptyStore]
        decide)

set_option maxRecDepth 8000

/-- C3: deletePost removes every reactions, replies and reports row
whose post_id matches and every post row with the id, keeps all other
rows, and answers NotFound exactly when no post row with the id existed;
the four table contents are as stated regardless of the outcome, so the
child deletions happen in the NotFound case as well (as no-ops when
nothing matches). -/
theorem delete_post_cascades (st : Store) (id : Nat) :
    (∀ x : Reaction, x ∈ (deletePost st id).1.reactions ↔ x ∈ st.reactions ∧ x.post_id ≠ id) ∧
    (∀ x : Reply, x ∈ (deletePost st id).1.replies ↔ x ∈ st.replies ∧ x.post_id ≠ id) ∧
    (∀ x : Report, x ∈ (deletePost st id).1.reports ↔ x ∈ st.reports ∧ x.post_id ≠ id) ∧
    (∀ p : Post, p ∈ (deletePost st id).1.posts ↔ p ∈ st.posts ∧ p.id ≠ id) ∧
    ((deletePost st id).2 = .error .notFound ↔ ∀ p ∈ st.posts, p.id ≠ id) := by
  have h1 : (deletePost st id).1 = { st with
      reactions := st.reactions.filter (fun r => !(r.post_id == id)),
      replies := st.replies.filter (fun r => !(r.post_id == id)),
      reports := st.reports.filter (fun r => !(r.post_id == id)),
      posts := st.posts.filter (fun p => !(p.id == id)) } := rfl
  have h2 : (deletePost st id).2 =
      if st.posts.countP (fun p => p.id == id) = 0
      then Except.error ApiError.notFound else Except.ok () := rfl
  refine ⟨?_, ?_, ?_, ?_, ?_⟩
  · intro x; rw [h1]; simp [List.mem_filter]
  · intro x; rw [h1]; simp [List.mem_filter]
  · intro x; rw [h1]; simp [List.mem_filter]
  · intro p; rw [h1]; simp [List.mem_filter]
  · rw [h2]
    split
    · simp only [true_iff]
      intro p hp
      have := List.countP_eq_zero.mp (by assumption) p hp
      simpa using this
    · simp only [reduceCtorEq, false_iff]
      intro hall
      have : st.posts.countP (fun p => p.id == id) = 0 :=
        List.countP_eq_zero.mpr (fun p hp => by simpa using hall p hp)
      exact absurd this (by assumption)

/-- Abbreviation for the post row createPost inserts on success. -/
def createdPost (st : Store) (now : Nat) (text mood : String) (image : Option String) : Post :=
  { id := st.nextPostId, text := jsTrim text, mood := safeMood mood,
    image := imageOrNull image, likes := 0, reposts := 0, timestamp := now }

/-- C4: createPost succeeds exactly when the trimmed text is nonempty
and at most 280 characters long, storing the full trimmed text (so an
over-long text is rejected rather than truncated); it fails with a
validation error when the trimmed text is empty or longer than 280
characters. -/
theorem create_post_length_validation (st : Store) (now : Nat) (text mood : String)
    (image : Option String) :
    (jsTrim text ≠ "" ∧ (jsTrim text).length ≤ MAX_LENGTH →
       ∃ st' p, createPost st now text mood image = .ok (st', p) ∧ p.text = jsTrim text) ∧
    (jsTrim text = "" ∨ MAX_LENGTH < (jsTrim text).length →
       ∃ msg, createPost st now text mood image = .error (.validation msg)) := by
  constructor
  · rintro ⟨hne, hlen⟩
    refine ⟨{ st with posts := st.posts ++ [createdPost st now text mood image],
                      nextPostId := st.nextPostId + 1 },
            createdPost st now text mood image, ?_, rfl⟩
    unfold createPost createdPost
    rw [if_neg hne, if_neg (by omega)]
  · intro hbad
    unfold createPost
    by_cases hne : jsTrim text = ""
    · rw [if_pos hne]
      exact ⟨_, rfl⟩
    · have hlen : (jsTrim text).length > MAX_LENGTH := by
        rcases hbad with h | h
        · exact absurd h hne
        · exact h
      rw [if_neg hne, if_pos hlen]
      exact ⟨_, rfl⟩

/-- A text of exactly 280 characters. -/
def text280 : String := String.mk (List.replicate 280 'a')

/-- A text of exactly 281 characters. -/
def text281 : String := String.mk (List.replicate 281 'a')

/-- Witness for C4: a 280-character text is accepted and stored in full,
and a 281-character text draws a validation error. -/
theorem create_post_length_validation_witness :
    (∃ st' p, createPost emptyStore 0 text280 "none" none = .ok (st', p) ∧
       p.text = jsTrim text280) ∧
    (∃ msg, createPost emptyStore 0 text281 "none" none = .error (.validation msg)) :=
  ⟨(create_post_length_validation emptyStore 0 text280 "none" none).1
     (by constructor <;> decide),
   (create_post_length_validation emptyStore 0 text281 "none" none).2
     (by right; decide)⟩

/-- C5: react, reply and report never check that the referenced post
exists: for any post id whatsoever (including ids with no post row),
valid inputs are accepted and a child row carrying that post_id is
appended to the respective table, and none of the three handlers can
answer NotFound. -/
theorem child_inserts_ignore_missing_post (st : Store) (now pid : Nat)
    (ty text reason : String)
    (hty : validTypes.contains ty = true)
    (htext : jsTrim text ≠ "")
    (hreason : validReasons.contains reason = true) :
    (∃ st' bk, addReaction st now pid ty = .ok (st', bk) ∧
       st'.reactions = st.reactions ++
         [{ id := st.nextReactionId, post_id := pid, type := ty, timestamp := now }]) ∧
    (∃ st' rep, addReply st now pid text = .ok (st', rep) ∧
       st'.replies = st.replies ++
         [{ id := st.nextReplyId, post_id := pid, text := jsTrim text, timestamp := now }]) ∧
    (∃ st' rep, addReport st now pid reason = .ok (st', rep) ∧
       st'.reports = st.reports ++
         [{ id := st.nextReportId, post_id := pid, reason := reason, timestamp := now }]) ∧
    (∀ e, addReaction st now pid ty ≠ .error e ∧ addReply st now pid text ≠ .error e ∧
       addReport st now pid reason ≠ .error e) := by
  have e1 : addReaction st now pid ty = .ok
      ({ st with reactions := st.reactions ++ [⟨st.nextReactionId, pid, ty, now⟩],
                 nextReactionId := st.nextReactionId + 1 },
       reactionBreakdown (st.reactions ++ [⟨st.nextReactionId, pid, ty, now⟩]) pid) := by
    unfold addReaction
    rw [if_neg (by rw [hty]; decide)]
  have e2 : addReply st now pid text = .ok
      ({ st with replies := st.replies ++ [⟨st.nextReplyId, pid, jsTrim text, now⟩],
                 nextReplyId := st.nextReplyId + 1 },
       ⟨st.nextReplyId, pid, jsTrim text, now⟩) := by
    unfold addReply
    rw [if_neg htext]
  have e3 : addReport st now pid reason = .ok
      ({ st with reports := st.reports ++ [⟨st.nextReportId, pid, reason, now⟩],
                 nextReportId := st.nextReportId + 1 },
       ⟨st.nextReportId, pid, reason, now⟩) := by
    unfold addReport
    rw [if_neg (by rw [hreason]; decide)]
  have h1 : ∃ st' bk, addReaction st now pid ty = .ok (st', bk) ∧
      st'.reactions = st.reactions ++
        [{ id := st.nextReactionId, post_id := pid, type := ty, timestamp := now }] :=
    ⟨_, _, e1, rfl⟩
  have h2 : ∃ st' rep, addReply st now pid text = .ok (st', rep) ∧
      st'.replies = st.replies ++
        [{ id := st.nextReplyId, post_id := pid, text := jsTrim text, timestamp := now }] :=
    ⟨_, _, e2, rfl⟩
  have h3 : ∃ st' rep, addReport st now pid reason = .ok (st', rep) ∧
      st'.reports = st.reports ++
        [{ id := st.nextReportId, post_id := pid, reason := reason, timestamp := now }] :=
    ⟨_, _, e3, rfl⟩
  refine ⟨h1, h2, h3, ?_⟩
  intro e
  obtain ⟨s1, b1, e1, _⟩ := h1
  obtain ⟨s2, b2, e2, _⟩ := h2
  obtain ⟨s3, b3, e3, _⟩ := h3
  rw [e1, e2, e3]
  exact ⟨by simp, by simp, by simp⟩

/-- Witness for C5: a valid reaction, reply and report against post id 7
of the empty store (which has no posts at all) are each accepted. -/
theorem child_inserts_ignore_missing_post_witness :
    (∃ st' bk, addReaction emptyStore 0 7 "love" = .ok (st', bk) ∧
       st'.reactions = emptyStore.reactions ++
         [{ id := emptyStore.nextReactionId, post_id := 7, type := "love", timestamp := 0 }]) ∧
    (∃ st' rep, addReply emptyStore 0 7 "ok" = .ok (st', rep) ∧
       st'.replies = emptyStore.replies ++
         [{ id := emptyStore.nextReplyId, post_id := 7, text := jsTrim "ok", timestamp := 0 }]) ∧
    (∃ st' rep, addReport emptyStore 0 7 "spam" = .ok (st', rep) ∧
       st'.reports = emptyStore.reports ++
         [{ id := emptyStore.nextReportId, post_id := 7, reason := "spam", timestamp := 0 }]) ∧
    (∀ e, addReaction emptyStore 0 7 "love" ≠ .error e ∧
       addReply emptyStore 0 7 "ok" ≠ .error e ∧
       addReport emptyStore 0 7 "spam" ≠ .error e) :=
  child_inserts_ignore_missing_post emptyStore 0 7 "love" "ok" "spam"
    (by decide) (by decide) (by decide)

/-- C6: with valid text, updatePost answers NotFound exactly when no
post row has the id; on success it leaves the three child tables and the
number of posts unchanged, keeps every non-matching post row untouched,
and on the matching rows rewrites only text, mood and image while
keeping id, likes, reposts and timestamp. -/
theorem update_post_frame (st : Store) (id : Nat) (text mood : String)
    (image : Option String)
    (hne : jsTrim text ≠ "") (hlen : (jsTrim text).length ≤ MAX_LENGTH) :
    (updatePost st id text mood image = .error .notFound ↔ ∀ p ∈ st.posts, p.id ≠ id) ∧
    (∀ st', updatePost st id text mood image = .ok st' →
       st'.reactions = st.reactions ∧ st'.replies = st.replies ∧
       st'.reports = st.reports ∧ st'.posts.length = st.posts.length ∧
       ∀ i (hi : i < st.posts.length) (hi' : i < st'.posts.length),
         ((st.posts.get ⟨i, hi⟩).id ≠ id →
            st'.posts.get ⟨i, hi'⟩ = st.posts.get ⟨i, hi⟩) ∧
         ((st.posts.get ⟨i, hi⟩).id = id →
            (st'.posts.get ⟨i, hi'⟩).id = (st.posts.get ⟨i, hi⟩).id ∧
            (st'.posts.get ⟨i, hi'⟩).likes = (st.posts.get ⟨i, hi⟩).likes ∧
            (st'.posts.get ⟨i, hi'⟩).reposts = (st.posts.get ⟨i, hi⟩).reposts ∧
            (st'.posts.get ⟨i, hi'⟩).timestamp = (st.posts.get ⟨i, hi⟩).timestamp ∧
            (st'.posts.get ⟨i, hi'⟩).text = jsTrim text ∧
            (st'.posts.get ⟨i, hi'⟩).mood = safeMood mood ∧
            (st'.posts.get ⟨i, hi'⟩).image = imageOrNull image)) := by
  have hdef : updatePost st id text mood image =
      (if st.posts.countP (fun p => p.id == id) = 0 then Except.error ApiError.notFound
       else Except.ok { st with posts := st.posts.map (fun p =>
         if p.id = id then
           { p with text := jsTrim text, mood := safeMood mood, image := imageOrNull image }
         else p) }) := by
    unfold updatePost
    rw [if_neg hne, if_neg (by omega)]
  constructor
  · rw [hdef]
    split
    · simp only [true_iff]
      intro p hp
      have := List.countP_eq_zero.mp (by assumption) p hp
      simpa using this
    · simp only [reduceCtorEq, false_iff]
      intro hall
      have hz : st.posts.countP (fun p => p.id == id) = 0 := by
        rw [List.countP_eq_zero]
        intro p hp
        simpa using hall p hp
      exact absurd hz (by assumption)
  · intro st' h
    rw [hdef] at h
    split at h
    · simp at h
    · simp only [Except.ok.injEq] at h
      subst h
      refine ⟨rfl, rfl, rfl, by simp, ?_⟩
      intro i hi hi'
      constructor
      · intro hx
        simp only [List.get_eq_getElem] at hx ⊢
        simp only [List.getElem_map]
        rw [if_neg hx]
      · intro hx
        simp only [List.get_eq_getElem] at hx ⊢
        simp only [List.getElem_map]
        rw [if_pos hx]
        exact ⟨rfl, rfl, rfl, rfl, rfl, rfl, rfl⟩

/-- Witness for C6: updating post 1 of the one-post store does not
answer NotFound. -/
theorem update_post_frame_witness :
    updatePost demoStore 1 "yo" "none" none ≠ .error .notFound :=
  fun h =>
    ((update_post_frame demoStore 1 "yo" "none" none (by decide) (by decide)).1.mp h
      demoPost (by simp [demoStore])) rfl

/-- Helper: when the post ids are distinct, SELECT-by-id (find?) returns
exactly the member carrying that id. -/
theorem find_post_of_nodup (l : List Post) (hnodup : (l.map Post.id).Nodup)
    (p : Post) (hp : p ∈ l) (id : Nat) (hid : p.id = id) :
    l.find? (fun q => q.id == id) = some p := by
  induction l with
  | nil => cases hp
  | cons a t ih =>
    simp only [List.map_cons, List.nodup_cons] at hnodup
    rcases List.mem_cons.mp hp with rfl | hpt
    · exact List.find?_cons_of_pos t (by simpa using hid)
    · have hane : ¬(a.id = id) := by
        intro he
        apply hnodup.1
        rw [he, ← hid]
        exact List.mem_map_of_mem Post.id hpt
      rw [List.find?_cons_of_neg t (by simpa using hane)]
      exact ih hnodup.2 hpt

/-- Helper: with distinct ids and a matching post, incrementLikes bumps
the likes of exactly that post and returns the new counter value. -/
theorem incrementLikes_eq (st : Store) (id : Nat)
    (hnodup : (st.posts.map Post.id).Nodup) (p : Post) (hp : p ∈ st.posts)
    (hid : p.id = id) :
    incrementLikes st id = .ok
      ({ st with posts := st.posts.map (fun q =>
           if q.id = id then { q with likes := q.likes + 1 } else q) },
       p.likes + 1) := by
  have hch : ¬(st.posts.countP (fun q => q.id == id) = 0) := by
    intro h0
    have := List.countP_eq_zero.mp h0 p hp
    simp [hid] at this
  unfold incrementLikes
  rw [if_neg hch]
  have hmem : ({ p with likes := p.likes + 1 } : Post) ∈ st.posts.map (fun q =>
      if q.id = id then { q with likes := q.likes + 1 } else q) :=
    List.mem_map.mpr ⟨p, hp, by rw [if_pos hid]⟩
  have hnodup2 : ((st.posts.map (fun q =>
      if q.id = id then { q with likes := q.likes + 1 } else q)).map Post.id).Nodup := by
    rw [List.map_map]
    have hcomp : (Post.id ∘ fun q =>
        if q.id = id then { q with likes := q.likes + 1 } else q) = Post.id := by
      funext q
      by_cases hq : q.id = id <;> simp [Function.comp, hq]
    rw [hcomp]
    exact hnodup
  rw [find_post_of_nodup _ hnodup2 _ hmem id (by simpa using hid)]

/-- Helper: incrementLikes answers NotFound exactly when no post row
carries the id. -/
theorem incrementLikes_notFound_iff (st : Store) (id : Nat) :
    incrementLikes st id = .error .notFound ↔ ∀ q ∈ st.posts, q.id ≠ id := by
  unfold incrementLikes
  split
  · simp only [true_iff]
    intro q hq
    have := List.countP_eq_zero.mp (by assumption) q hq
    simpa using this
  · have hiff : ¬(∀ q ∈ st.posts, q.id ≠ id) := by
      intro hall
      have hz : st.posts.countP (fun q => q.id == id) = 0 := by
        rw [List.countP_eq_zero]
        intro q hq
        simpa using hall q hq
      exact absurd hz (by assumption)
    split
    · simp only [reduceCtorEq, false_iff]
      exact hiff
    · simp only [Except.error.injEq, reduceCtorEq, false_iff]
      exact hiff

/-- Helper: incrementReposts answers NotFound exactly when no post row
carries the id. -/
theorem incrementReposts_notFound_iff (st : Store) (id : Nat) :
    incrementReposts st id = .error .notFound ↔ ∀ q ∈ st.posts, q.id ≠ id := by
  unfold incrementReposts
  split
  · simp only [true_iff]
    intro q hq
    have := List.countP_eq_zero.mp (by assumption) q hq
    simpa using this
  · have hiff : ¬(∀ q ∈ st.posts, q.id ≠ id) := by
      intro hall
      have hz : st.posts.countP (fun q => q.id == id) = 0 := by
        rw [List.countP_eq_zero]
        intro q hq
        simpa using hall q hq
      exact absurd hz (by assumption)
    split
    · simp only [reduceCtorEq, false_iff]
      exact hiff
    · simp only [Except.error.injEq, reduceCtorEq, false_iff]
      exact hiff

/-- C7: liking an existing post twice in sequence returns the
post-increment counter value each time (old + 1, then old + 2) and
leaves the post's likes counter exactly two higher; incrementLikes and
incrementReposts answer NotFound exactly when the id has no post row. -/
theorem like_twice_increments_by_two (st : Store) (id : Nat)
    (hnodup : (st.posts.map Post.id).Nodup) (p : Post) (hp : p ∈ st.posts)
    (hid : p.id = id) :
    (∃ st1, incrementLikes st id = .ok (st1, p.likes + 1) ∧
       ∃ st2, incrementLikes st1 id = .ok (st2, p.likes + 2) ∧
         ∃ p2 ∈ st2.posts, p2.id = id ∧ p2.likes = p.likes + 2) ∧
    (∀ st' j, (incrementLikes st' j = .error .notFound ↔ ∀ q ∈ st'.posts, q.id ≠ j) ∧
       (incrementReposts st' j = .error .notFound ↔ ∀ q ∈ st'.posts, q.id ≠ j)) := by
  constructor
  · have e1 := incrementLikes_eq st id hnodup p hp hid
    refine ⟨_, e1, ?_⟩
    have hnodup1 : (((st.posts.map (fun q =>
        if q.id = id then { q with likes := q.likes + 1 } else q))).map Post.id).Nodup := by
      rw [List.map_map]
      have hcomp : (Post.id ∘ fun q =>
          if q.id = id then { q with likes := q.likes + 1 } else q) = Post.id := by
        funext q
        by_cases hq : q.id = id <;> simp [Function.comp, hq]
      rw [hcomp]
      exact hnodup
    have hmem1 : ({ p with likes := p.likes + 1 } : Post) ∈ st.posts.map (fun q =>
        if q.id = id then { q with likes := q.likes + 1 } else q) :=
      List.mem_map.mpr ⟨p, hp, by rw [if_pos hid]⟩
    have e2 := incrementLikes_eq
      { st with posts := st.posts.map (fun q =>
          if q.id = id then { q with likes := q.likes + 1 } else q) }
      id hnodup1 { p with likes := p.likes + 1 } hmem1 (by simpa using hid)
    refine ⟨_, e2, ?_⟩
    refine ⟨{ p with likes := p.likes + 1 + 1 }, ?_, by simpa using hid, rfl⟩
    exact List.mem_map.mpr ⟨{ p with likes := p.likes + 1 }, hmem1, by
      rw [if_pos (by simpa using hid)]⟩
  · intro st' j
    exact ⟨incrementLikes_notFound_iff st' j, incrementReposts_notFound_iff st' j⟩

/-- Witness for C7: applying the theorem at the one-post store shows
that liking a nonexistent id at the empty store answers NotFound. -/
theorem like_twice_increments_by_two_witness :
    incrementLikes emptyStore 5 = .error .notFound :=
  ((like_twice_increments_by_two demoStore 1 (by decide) demoPost (by decide) rfl).2
      emptyStore 5).1.mpr (by decide)

/-- C2: the list endpoint returns exactly the joined post rows (a
permutation of one row per stored post); with sort=top they come out
ordered by reaction_count + reposts + likes descending, and with any
other or absent sort query they come out ordered by the creation
timestamp descending. -/
theorem list_posts_ordering (st : Store) (q : Option String) :
    (listPosts st q).Perm (postRows st) ∧
    ((listPosts st q).map (fun r => r.post)).Perm st.posts ∧
    (q = some "top" → (listPosts st q).Pairwise (fun a b =>
       b.reaction_count + b.post.reposts + b.post.likes ≤
         a.reaction_count + a.post.reposts + a.post.likes)) ∧
    (q ≠ some "top" → (listPosts st q).Pairwise (fun a b =>
       b.post.timestamp ≤ a.post.timestamp)) := by
  have hperm : (listPosts st q).Perm (postRows st) := by
    unfold listPosts
    split
    · exact List.mergeSort_perm _ _
    · exact List.mergeSort_perm _ _
  refine ⟨hperm, ?_, ?_, ?_⟩
  · have h2 := hperm.map (fun r => r.post)
    have h3 : (postRows st).map (fun r => r.post) = st.posts := by
      unfold postRows
      rw [List.map_map]
      simp [Function.comp_def]
    rw [h3] at h2
    exact h2
  · intro hq
    have hb : (q == some "top") = true := by simp [hq]
    have htrans : ∀ a b c : PostRow, topOrder a b → topOrder b c → topOrder a c := by
      intro a b c hab hbc
      simp only [topOrder, decide_eq_true_eq] at hab hbc ⊢
      omega
    have htotal : ∀ a b : PostRow, topOrder a b || topOrder b a := by
      intro a b
      simp only [topOrder]
      by_cases hab : b.reaction_count + b.post.reposts + b.post.likes ≤
          a.reaction_count + a.post.reposts + a.post.likes
      · simp [hab]
      · simp [hab, Nat.le_of_not_le hab]
    have hs : ((postRows st).mergeSort topOrder).Pairwise (fun a b => topOrder a b) :=
      List.sorted_mergeSort htrans htotal (postRows st)
    unfold listPosts
    rw [if_pos hb]
    exact hs.imp (fun h => by simpa [topOrder] using h)
  · intro hq
    have hb : (q == some "top") = false := by
      simp only [beq_eq_false_iff_ne, ne_eq]
      exact hq
    have htrans : ∀ a b c : PostRow, timeOrder a b → timeOrder b c → timeOrder a c := by
      intro a b c hab hbc
      simp only [timeOrder, decide_eq_true_eq] at hab hbc ⊢
      omega
    have htotal : ∀ a b : PostRow, timeOrder a b || timeOrder b a := by
      intro a b
      simp only [timeOrder]
      by_cases hab : b.post.timestamp ≤ a.post.timestamp
      · simp [hab]
      · simp [hab, Nat.le_of_not_le hab]
    have hs : ((postRows st).mergeSort timeOrder).Pairwise (fun a b => timeOrder a b) :=
      List.sorted_mergeSort htrans htotal (postRows st)
    unfold listPosts
    rw [if_neg (by simp [hb])]
    exact hs.imp (fun h => by simpa [timeOrder] using h)

/-- Witness for C2 at the one-post store, under both sort modes. -/
theorem list_posts_ordering_witness :
    (listPosts demoStore (some "top")).Pairwise (fun a b =>
       b.reaction_count + b.post.reposts + b.post.likes ≤
         a.reaction_count + a.post.reposts + a.post.likes) ∧
    (listPosts demoStore none).Pairwise (fun a b =>
       b.post.timestamp ≤ a.post.timestamp) :=
  ⟨(list_posts_ordering demoStore (some "top")).2.2.1 rfl,
   (list_posts_ordering demoStore none).2.2.2 (by simp)⟩

/-- Helper: counting occurrences with the BEq instance induced by
decidable equality is counting the matching filter's length. -/
theorem count_ofDecEq_eq_filter_length (keys : List (Nat × String)) (k : Nat × String) :
    @List.count _ instBEqOfDecidableEq k keys = (keys.filter (fun y => y == k)).length := by
  rw [@List.count_eq_countP _ instBEqOfDecidableEq, List.countP_eq_length_filter]
  refine congrArg List.length (List.filter_congr ?_)
  intro a _
  show (@BEq.beq _ instBEqOfDecidableEq a k) = (a == k)
  by_cases h : a = k <;> simp [h, instBEqOfDecidableEq]

/-- Helper: within a GROUP BY post_id, type result the counts of the
groups belonging to one post id add up to the number of reaction rows
with that post id. -/
theorem groupRows_sum_counts (rs : List Reaction) (pid : Nat) :
    (((groupRows rs).filter (fun g => g.post_id == pid)).map (fun g => g.count)).sum
      = (rs.filter (fun r => r.post_id == pid)).length := by
  unfold groupRows
  rw [List.filter_map, List.map_map]
  have hpred : ((fun g : GroupRow => g.post_id == pid) ∘ (fun k : Nat × String =>
      ({ post_id := k.1, type := k.2,
         count := (rs.filter (fun r => (r.post_id, r.type) == k)).length } : GroupRow)))
      = fun k : Nat × String => k.1 == pid := by
    funext k
    rfl
  have hcnt : ((fun g : GroupRow => g.count) ∘ (fun k : Nat × String =>
      ({ post_id := k.1, type := k.2,
         count := (rs.filter (fun r => (r.post_id, r.type) == k)).length } : GroupRow)))
      = fun k : Nat × String =>
          @List.count _ instBEqOfDecidableEq k (rs.map (fun r => (r.post_id, r.type))) := by
    funext k
    show (rs.filter (fun r => (r.post_id, r.type) == k)).length = _
    rw [count_ofDecEq_eq_filter_length, List.filter_map, List.length_map]
    rfl
  rw [hpred, hcnt, List.sum_map_count_dedup_filter_eq_countP, List.countP_map,
      List.countP_eq_length_filter]
  rfl

/-- Helper: a row produced by the list endpoint carries as its
reaction_count field exactly the number of reaction rows with its post
id. -/
theorem mem_listPosts_reaction_count (st : Store) (q : Option String) (row : PostRow)
    (hrow : row ∈ listPosts st q) :
    row.reaction_count = reaction_count st row.post.id := by
  have hmem : row ∈ postRows st := by
    unfold listPosts at hrow
    split at hrow <;> exact List.mem_mergeSort.mp hrow
  unfold postRows at hmem
  obtain ⟨p, hp, rfl⟩ := List.mem_map.mp hmem
  rfl

/-- C1: in a successful list call every returned post's reactions
breakdown sums, over all reaction types, to the reaction_count value the
same call returns for that post. -/
theorem breakdown_sum_eq_reaction_count (st : Store) (q : Option String)
    (e : ListedPost) (he : e ∈ listPostsOk st q) :
    (e.reactions.map (fun x => x.2)).sum = e.row.reaction_count := by
  unfold listPostsOk listPostsFull at he
  simp only [List.mem_map] at he
  obtain ⟨row, hrow, rfl⟩ := he
  have hpid : row.post.id ∈ (listPosts st q).map (fun r => r.post.id) :=
    List.mem_map_of_mem _ hrow
  have hnz : ¬(((listPosts st q).map (fun r => r.post.id)).length = 0) := by
    intro h0
    rw [List.length_eq_zero] at h0
    rw [h0] at hpid
    cases hpid
  have hmap : getReactionsForPosts ((listPosts st q).map (fun r => r.post.id))
      (some (runGroupQuery st ((listPosts st q).map (fun r => r.post.id)))) row.post.id
      = ((runGroupQuery st ((listPosts st q).map (fun r => r.post.id))).filter
          (fun r => r.post_id == row.post.id)).map (fun r => (r.type, r.count)) := by
    unfold getReactionsForPosts
    rw [if_neg hnz]
  show ((getReactionsForPosts ((listPosts st q).map (fun r => r.post.id))
      (some (runGroupQuery st ((listPosts st q).map (fun r => r.post.id)))) row.post.id).map
        (fun x => x.2)).sum = row.reaction_count
  rw [hmap, List.map_map]
  have hsum := groupRows_sum_counts
    (st.reactions.filter (fun r => ((listPosts st q).map (fun r => r.post.id)).contains r.post_id))
    row.post.id
  unfold runGroupQuery
  rw [show ((fun x : String × Nat => x.2) ∘ fun r : GroupRow => (r.type, r.count))
        = fun r : GroupRow => r.count from rfl]
  rw [hsum, List.filter_filter]
  rw [List.filter_congr (fun r _ => ?_)]
  · exact (mem_listPosts_reaction_count st q row hrow).symm
  · by_cases hc : r.post_id = row.post.id
    · have hcon : ((listPosts st q).map (fun r => r.post.id)).contains row.post.id = true :=
        List.elem_iff.mpr hpid
      rw [hc, hcon, Bool.and_true]
    · have hbe : (r.post_id == row.post.id) = false := by
        simp [hc]
      rw [hbe, Bool.false_and]

/-- Witness for C1 at the one-post, two-reaction store. -/
theorem breakdown_sum_eq_reaction_count_witness :
    (((ListedPost.mk demoRow [("love", 1), ("fire", 1)]).reactions.map (fun x => x.2)).sum
      = (ListedPost.mk demoRow [("love", 1), ("fire", 1)]).row.reaction_count) :=
  breakdown_sum_eq_reaction_count demoStore none
    (ListedPost.mk demoRow [("love", 1), ("fire", 1)])
    (by simp [listPostsOk, listPostsFull, listPosts, postRows, getReactionsForPosts,
              runGroupQuery, groupRows, demoStore, demoPost, demoRow,
              reaction_count, reply_count])
